import Mathlib

/-!
Shallow embedding of `src/main.py` (the `AssistantManager` class of the
personal-trainer chat client) and proofs about its poll loop, identity
resolution, response extraction and runtime formatting.

The remote OpenAI API is modelled as an explicit environment: retrieval and
creation calls are `Except`-valued inputs, and successive run-status fetches
inside the poll loop are given as a list of `Except`-valued results.  Python
exceptions become `Except.error`; `st.session_state` becomes an explicit
`SessionState` record threaded through every operation; logging becomes an
accumulated list of `LogEvent`s; `sleep(sleep_interval)` becomes an entry
appended to a list of slept intervals.
-/

namespace PersonalTrainer

/-- A remote run record as the client reads it: `id`, `status` and the two
epoch-second timestamps used by `retrieve_runtime`. -/
structure Run where
  id : String
  status : String
  created_at : Int
  completed_at : Int
deriving DecidableEq

/-- One content block of a message; the client only reads `.text.value`. -/
structure ContentBlock where
  text_value : String
deriving DecidableEq

/-- A thread message as returned by `messages.list`. -/
structure Message where
  content : List ContentBlock
deriving DecidableEq

/-- A remote assistant record (only its `id` is used by the client). -/
structure Assistant where
  id : String
deriving DecidableEq

/-- A remote thread record (only its `id` is used by the client). -/
structure Thread where
  id : String
deriving DecidableEq

/-- A line written through `logging`: level and message. -/
inductive LogLevel where
  | info
  | error
deriving DecidableEq

/-- A log line: `logging.info` / `logging.error` with its message. -/
structure LogEvent where
  level : LogLevel
  msg : String
deriving DecidableEq

/-- Shorthand for an INFO log line. -/
def infoLog (m : String) : LogEvent := ⟨LogLevel.info, m⟩

/-- Shorthand for an ERROR log line. -/
def errorLog (m : String) : LogEvent := ⟨LogLevel.error, m⟩

/-- The two persisted ids kept in `st.session_state`
(`"assistant_id"` and `"thread_id"`), each initialised to `None`. -/
structure SessionState where
  assistant_id : Option String
  thread_id : Option String
deriving DecidableEq

/-- Python truthiness of an optional string: `None` and `""` are falsy;
this is what `if st.session_state["assistant_id"]:` tests. -/
def truthy : Option String → Bool
  | none => false
  | some s => s != ""

/-- Zero-padded two-digit rendering of a field of `strftime ("%H:%M:%S")`. -/
def pad2 (n : Nat) : String :=
  if n < 10 then "0" ++ toString n else toString n

/-- `strftime ("%H:%M:%S", gmtime t)` for an integer number of seconds `t`:
`gmtime` maps `t` to the calendar time `t` seconds after the epoch (also for
negative `t`, on the platform the program targets), and `%H:%M:%S` reads the
time-of-day fields, i.e. `t` modulo 86400 split into hours, minutes, seconds.
`Int.emod` agrees with Python `%` on a positive modulus. -/
def gmtime_hms (t : Int) : String :=
  pad2 ((t % 86400).toNat / 3600) ++ ":" ++
    pad2 ((t % 86400).toNat % 3600 / 60) ++ ":" ++
    pad2 ((t % 86400).toNat % 60)

/-- `AssistantManager.retrieve_runtime`, as a function of the completed run
record `self.run`: `elapsed_time = completed_at - created_at` formatted with
`strftime ("%H:%M:%S", gmtime elapsed_time)`. -/
def retrieve_runtime_value (r : Run) : String :=
  gmtime_hms (r.completed_at - r.created_at)

/-- The INFO line `retrieve_runtime` writes. -/
def runtimeLog (r : Run) : LogEvent :=
  infoLog ("Run completed in: " ++ retrieve_runtime_value r)

/-- `AssistantManager.retrieve_response`, as a function of the message list
returned by `messages.list (thread_id, run_id)`: `messages.data[0]` then
`.content[0].text.value`.  Indexing an empty list raises `IndexError`,
modelled as `Except.error`. -/
def retrieve_response_value (messages : List Message) : Except String String :=
  match messages with
  | [] => Except.error "IndexError: list index out of range"
  | last_message :: _ =>
    match last_message.content with
    | [] => Except.error "IndexError: list index out of range"
    | c :: _ => Except.ok c.text_value

/-- Specification-side formatter, written from the spec's words only:
"computes `elapsed = completedAt - createdAt` … and formats as `HH:MM:SS`
(values ≥24h wrap modulo 24h)" — hours wrap modulo 24, minutes and seconds
are the usual fields of a duration of `d` seconds. -/
def specFormatElapsed (d : Nat) : String :=
  pad2 (d / 3600 % 24) ++ ":" ++ pad2 (d % 3600 / 60) ++ ":" ++ pad2 (d % 60)

/-! ### The per-turn manager state and operations -/

/-- The mutable state visible to one user turn: the session store plus the
`AssistantManager` instance fields touched by `ask_assistant`,
`run_assistant`, `wait_assistant` and the accessors, together with the
instrumentation the claims speak about (number of status fetches, the list
of slept intervals, the accumulated log lines). -/
structure Mgr where
  session : SessionState
  run_id : Option String
  run : Option Run
  response : Option String
  runtime : Option String
  fetches : Nat
  sleeps : List Nat
  logs : List LogEvent
deriving DecidableEq

/-- Payload of the `messages.create` call issued by `ask_assistant`. -/
structure MessageCreate where
  thread_id : Option String
  role : String
  content : String
deriving DecidableEq

/-- `AssistantManager.ask_assistant`: posts a user-role message to the
thread; it reads `st.session_state["thread_id"]` and writes nothing. -/
def ask_assistant (m : Mgr) (prompt : String) : Mgr × MessageCreate :=
  (m, ⟨m.session.thread_id, "user", prompt⟩)

/-- `AssistantManager.run_assistant`: the remote `runs.create` call returns
the record `created`; the method stores it in `self.run` and its id in
`self.run_id`.  It reads both session ids and writes neither. -/
def run_assistant (m : Mgr) (created : Run) : Mgr :=
  { m with run := some created, run_id := some created.id }

/-- `AssistantManager.return_response`: accessor for `self.response`. -/
def return_response (m : Mgr) : Mgr × Option String :=
  (m, m.response)

/-- `AssistantManager.return_runtime`: accessor for `self.runtime`. -/
def return_runtime (m : Mgr) : Mgr × Option String :=
  (m, m.runtime)

/-- `sleep_interval = 1` at the top of `wait_assistant`. -/
def sleep_interval : Nat := 1

/-- The INFO line of a non-completed poll iteration. -/
def waitingLog : LogEvent := infoLog "Waiting for Run to complete..."

/-- The ERROR line of the `except` clause in `wait_assistant`. -/
def pollErrorLog (e : String) : LogEvent :=
  errorLog ("Error occurred while retrieving the Run: " ++ e)

/-- `AssistantManager.wait_assistant`.  `polls` lists the results of the
successive `runs.retrieve` status fetches (`Except.error` = the fetch
raised); `messages` is what `messages.list` returns once the run is
completed.  Each loop iteration consumes the next element of `polls`:

* a raising fetch is caught by the `except` clause, logged at ERROR level
  and breaks the loop (`some` final state, nothing else changed);
* a `"completed"` status runs `retrieve_response` then `retrieve_runtime`
  inside the same `try` (an `IndexError` from an empty message list is
  likewise caught, logged and breaks the loop) and breaks with
  `self.response` and `self.runtime` set;
* any other status logs "Waiting...", sleeps `sleep_interval` seconds and
  loops.

`none` means the provided fetch results were exhausted with the loop still
running — the code itself has no other way out of `while True`. -/
def wait_assistant (polls : List (Except String Run)) (messages : List Message)
    (m : Mgr) : Option Mgr :=
  match polls with
  | [] => none
  | p :: rest =>
    match p with
    | Except.error e =>
        some { m with
                fetches := m.fetches + 1
                logs := m.logs ++ [pollErrorLog e] }
    | Except.ok r =>
        if r.status == "completed" then
          match retrieve_response_value messages with
          | Except.error e =>
              some { m with
                      fetches := m.fetches + 1
                      run := some r
                      logs := m.logs ++ [pollErrorLog e] }
          | Except.ok resp =>
              some { m with
                      fetches := m.fetches + 1
                      run := some r
                      response := some resp
                      runtime := some (retrieve_runtime_value r)
                      logs := m.logs ++ [runtimeLog r] }
        else
          wait_assistant rest messages
            { m with
                fetches := m.fetches + 1
                run := some r
                logs := m.logs ++ [waitingLog]
                sleeps := m.sleeps ++ [sleep_interval] }

/-! ### Identity resolution (`AssistantManager.__init__`) -/

/-- The remote API as seen by `__init__`: the two retrieval calls and the
two creation calls, each able to raise (`Except.error`).  Creation is
called at most once per entity per `__init__`, so a single `Except` value
per creation suffices. -/
structure IdentityEnv where
  retrieveAssistant : String → Except String Assistant
  createAssistant : Except String Assistant
  retrieveThread : String → Except String Thread
  createThread : Except String Thread

/-- One remote call issued during `__init__`, for counting. -/
inductive ApiCall where
  | retrieveAssistant (id : String)
  | createAssistant
  | retrieveThread (id : String)
  | createThread
deriving DecidableEq

/-- State accumulated while `__init__` runs: the instance fields it sets,
the session store, and the traces of remote calls and log lines. -/
structure InitState where
  assistant : Option Assistant
  thread : Option Thread
  session : SessionState
  calls : List ApiCall
  logs : List LogEvent
deriving DecidableEq

/-- `AssistantManager.create_assistant`: remote create, then store the new
id in `st.session_state["assistant_id"]` and log it.  If the create call
raises, the exception propagates (`some` error message) and nothing after
it runs — in particular the session store is not written. -/
def create_assistant (env : IdentityEnv) (s : InitState) :
    InitState × Option String :=
  match env.createAssistant with
  | Except.error e =>
      ({ s with calls := s.calls ++ [ApiCall.createAssistant] }, some e)
  | Except.ok a =>
      ({ s with
          assistant := some a
          session := { s.session with assistant_id := some a.id }
          calls := s.calls ++ [ApiCall.createAssistant]
          logs := s.logs ++
            [infoLog ("New Assistant has been created, ID is: " ++ a.id)] },
        none)

/-- `AssistantManager.create_thread`: remote create, then store the new id
in `st.session_state["thread_id"]` and log it; a raising create
propagates without writing the store. -/
def create_thread (env : IdentityEnv) (s : InitState) :
    InitState × Option String :=
  match env.createThread with
  | Except.error e =>
      ({ s with calls := s.calls ++ [ApiCall.createThread] }, some e)
  | Except.ok t =>
      ({ s with
          thread := some t
          session := { s.session with thread_id := some t.id }
          calls := s.calls ++ [ApiCall.createThread]
          logs := s.logs ++
            [infoLog ("New Thread has been created, ID is: " ++ t.id)] },
        none)

/-- The assistant half of `__init__`: if the persisted id is truthy,
retrieve it; on success keep it, on any exception log at ERROR level and
fall back to `create_assistant`; if the id is absent, create directly. -/
def resolve_assistant (env : IdentityEnv) (s : InitState) :
    InitState × Option String :=
  if truthy s.session.assistant_id then
    let aid := s.session.assistant_id.getD ""
    let s1 : InitState :=
      { s with
          logs := s.logs ++ [infoLog "Assistant ID exists. Retrieving Assistant..."]
          calls := s.calls ++ [ApiCall.retrieveAssistant aid] }
    match env.retrieveAssistant aid with
    | Except.ok a =>
        ({ s1 with
            assistant := some a
            logs := s1.logs ++
              [infoLog "Assistant retrieved successfully",
               infoLog ("Current Assistant ID is: " ++ aid)] }, none)
    | Except.error e =>
        create_assistant env
          { s1 with
              logs := s1.logs ++
                [errorLog ("Fail to retrieve Assistant: " ++ e),
                 infoLog "No Assistant found. Creating new Assistant..."] }
  else
    create_assistant env
      { s with
          logs := s.logs ++
            [infoLog "Assistant ID not found. Creating new Assistant..."] }

/-- The thread half of `__init__`, same policy as the assistant half. -/
def resolve_thread (env : IdentityEnv) (s : InitState) :
    InitState × Option String :=
  if truthy s.session.thread_id then
    let tid := s.session.thread_id.getD ""
    let s1 : InitState :=
      { s with
          logs := s.logs ++ [infoLog "Thread ID exists. Retrieving Thread..."]
          calls := s.calls ++ [ApiCall.retrieveThread tid] }
    match env.retrieveThread tid with
    | Except.ok t =>
        ({ s1 with
            thread := some t
            logs := s1.logs ++
              [infoLog "Thread retrieved successfully",
               infoLog ("Current Thread ID is: " ++ tid)] }, none)
    | Except.error e =>
        create_thread env
          { s1 with
              logs := s1.logs ++
                [errorLog ("Fail to retrieve Thread: " ++ e),
                 infoLog "No Thread found. Creating new Thread..."] }
  else
    create_thread env
      { s with
          logs := s.logs ++
            [infoLog "Thread ID not found. Creating new Thread..."] }

/-- `AssistantManager.__init__` given the persisted session state: resolve
the assistant id, then — only if no exception propagated — resolve the
thread id.  The second component is the exception propagating out of the
constructor, if any; the first is the state at that moment. -/
def initManager (env : IdentityEnv) (session : SessionState) :
    InitState × Option String :=
  match resolve_assistant env ⟨none, none, session, [], []⟩ with
  | (s1, some e) => (s1, some e)
  | (s1, none) => resolve_thread env s1

/-! ### Theorems -/

/-- Auxiliary: for a nonnegative elapsed time the `gmtime`-based rendering
agrees with the spec's `HH:MM:SS`-with-24h-wrap formatter. -/
lemma gmtime_hms_nonneg (t : Int) (h : 0 ≤ t) :
    gmtime_hms t = specFormatElapsed t.toNat := by
  have h1 : (t % 86400).toNat = t.toNat % 86400 := by omega
  have h2 : t.toNat % 86400 / 3600 = t.toNat / 3600 % 24 := by
    have := Nat.mod_mul_right_div_self t.toNat 3600 24
    simpa using this
  have h3 : t.toNat % 86400 % 3600 = t.toNat % 3600 :=
    Nat.mod_mod_of_dvd t.toNat (by norm_num)
  have h4 : t.toNat % 86400 % 60 = t.toNat % 60 :=
    Nat.mod_mod_of_dvd t.toNat (by norm_num)
  simp only [gmtime_hms, specFormatElapsed, h1, h2, h3, h4]

/-- C4: for runs with `completedAt ≥ createdAt`, `retrieve_runtime` renders
`completedAt - createdAt` as `HH:MM:SS` with hours wrapping modulo 24; and
on `createdAt = 0, completedAt = 65` it yields `"00:01:05"`. -/
theorem retrieve_runtime_formats_elapsed :
    (∀ r : Run, r.created_at ≤ r.completed_at →
      retrieve_runtime_value r =
        specFormatElapsed (r.completed_at - r.created_at).toNat) ∧
    retrieve_runtime_value ⟨"run_1", "completed", 0, 65⟩ = "00:01:05" := by
  constructor
  · intro r h
    exact gmtime_hms_nonneg _ (by omega)
  · decide

/-- Witness for C4: the general statement applied at
`createdAt = 0, completedAt = 65`. -/
theorem retrieve_runtime_formats_elapsed_witness :
    retrieve_runtime_value ⟨"run_1", "completed", 0, 65⟩ =
      specFormatElapsed 65 :=
  retrieve_runtime_formats_elapsed.1 ⟨"run_1", "completed", 0, 65⟩ (by decide)

/-- C5 counterexample: on clock skew (`completedAt = 5 < 10 = createdAt`)
`retrieve_runtime` yields `"23:59:55"`, not the clamped `"00:00:00"` the
claim asserts. -/
theorem retrieve_runtime_no_clamp_counterexample :
    (Run.mk "run_1" "completed" 10 5).completed_at <
        (Run.mk "run_1" "completed" 10 5).created_at ∧
      retrieve_runtime_value ⟨"run_1", "completed", 10, 5⟩ = "23:59:55" ∧
      retrieve_runtime_value ⟨"run_1", "completed", 10, 5⟩ ≠ "00:00:00" := by
  refine ⟨by decide, by decide, by decide⟩

/-- C5 amended: for `completedAt < createdAt` the result is still a defined
`HH:MM:SS` string, obtained by wrapping the negative elapsed value modulo
24 hours (Python `%`, nonnegative remainder) — not by clamping to zero. -/
theorem retrieve_runtime_negative_wraps (r : Run)
    (_h : r.completed_at < r.created_at) :
    retrieve_runtime_value r =
      specFormatElapsed ((r.completed_at - r.created_at) % 86400).toNat := by
  have hlt : ((r.completed_at - r.created_at) % 86400).toNat / 3600 % 24 =
      ((r.completed_at - r.created_at) % 86400).toNat / 3600 := by omega
  simp only [retrieve_runtime_value, gmtime_hms, specFormatElapsed, hlt]

/-- Witness for C5's amended statement at `createdAt = 10, completedAt = 5`. -/
theorem retrieve_runtime_negative_wraps_witness :
    retrieve_runtime_value ⟨"run_1", "completed", 10, 5⟩ =
      specFormatElapsed ((5 - 10 : Int) % 86400).toNat :=
  retrieve_runtime_negative_wraps ⟨"run_1", "completed", 10, 5⟩ (by decide)

/-- C8: when the message list's first entry has a first content block,
`retrieve_response` returns that block's text; on an empty message list it
raises (never returns a value). -/
theorem retrieve_response_first_block :
    (∀ (msg : Message) (ms : List Message) (c : ContentBlock)
        (cs : List ContentBlock), msg.content = c :: cs →
        retrieve_response_value (msg :: ms) = Except.ok c.text_value) ∧
    ∀ s : String, retrieve_response_value [] ≠ Except.ok s := by
  constructor
  · intro msg ms c cs h
    simp [retrieve_response_value, h]
  · intro s h
    simp [retrieve_response_value] at h

/-- Witness for C8 on a one-message list with text `"Hi there"`. -/
theorem retrieve_response_first_block_witness :
    retrieve_response_value [⟨[⟨"Hi there"⟩]⟩] = Except.ok "Hi there" :=
  retrieve_response_first_block.1 ⟨[⟨"Hi there"⟩]⟩ [] ⟨"Hi there"⟩ [] rfl

/-- C2: if every status fetch succeeds and none ever reports
`"completed"` (whatever the actual status — `"failed"`, `"cancelled"`,
`"expired"`, `"requires_action"`, …), the poll loop never terminates: after
consuming any finite number of such fetch results it is still running. -/
theorem wait_assistant_nonterminating_without_completed
    (polls : List (Except String Run)) (messages : List Message) (m : Mgr)
    (h : ∀ p ∈ polls, ∃ r, p = Except.ok r ∧ r.status ≠ "completed") :
    wait_assistant polls messages m = none := by
  induction polls generalizing m with
  | nil => rfl
  | cons p rest ih =>
      obtain ⟨r, hp, hr⟩ := h p (List.mem_cons_self p rest)
      subst hp
      have hb : (r.status == "completed") = false := by simpa using hr
      simp only [wait_assistant, hb, if_false, Bool.false_eq_true]
      exact ih _ fun q hq => h q (List.mem_cons_of_mem _ hq)

/-- Witness for C2: two successful polls reporting `"failed"` then
`"cancelled"` leave the loop still running. -/
theorem wait_assistant_nonterminating_witness :
    wait_assistant
        [Except.ok ⟨"run_1", "failed", 0, 0⟩,
         Except.ok ⟨"run_1", "cancelled", 0, 0⟩]
        [] ⟨⟨some "a", some "t"⟩, some "run_1", none, none, none, 0, [], []⟩ =
      none :=
  wait_assistant_nonterminating_without_completed _ _ _ (by
    intro p hp
    simp only [List.mem_cons, List.not_mem_nil, or_false] at hp
    rcases hp with h | h <;> subst h
    · exact ⟨_, rfl, by decide⟩
    · exact ⟨_, rfl, by decide⟩)

/-- Auxiliary: consuming a block of successful, non-`"completed"` fetch
results advances the loop without terminating it: one fetch, one
"Waiting..." log line and one `sleep_interval` sleep per result, with the
session, run id, response and runtime untouched (the `run` field holds the
most recent fetched record, existentially). -/
lemma wait_assistant_skip (pre : List Run) (rest : List (Except String Run))
    (messages : List Message) (m : Mgr)
    (h : ∀ r ∈ pre, r.status ≠ "completed") :
    ∃ ro : Option Run,
      wait_assistant (pre.map Except.ok ++ rest) messages m =
        wait_assistant rest messages
          { m with
              fetches := m.fetches + pre.length
              run := ro
              logs := m.logs ++ List.replicate pre.length waitingLog
              sleeps := m.sleeps ++ List.replicate pre.length sleep_interval } := by
  induction pre generalizing m with
  | nil => exact ⟨m.run, by simp⟩
  | cons r pre ih =>
      have hb : (r.status == "completed") = false := by
        simpa using h r (List.mem_cons_self r pre)
      obtain ⟨ro, hro⟩ :=
        ih { m with
              fetches := m.fetches + 1
              run := some r
              logs := m.logs ++ [waitingLog]
              sleeps := m.sleeps ++ [sleep_interval] }
          (fun q hq => h q (List.mem_cons_of_mem _ hq))
      refine ⟨ro, ?_⟩
      have hstep :
          wait_assistant (List.map Except.ok (r :: pre) ++ rest) messages m =
            wait_assistant (List.map Except.ok pre ++ rest) messages
              { m with
                  fetches := m.fetches + 1
                  run := some r
                  logs := m.logs ++ [waitingLog]
                  sleeps := m.sleeps ++ [sleep_interval] } := by
        simp only [List.map_cons, List.cons_append, wait_assistant, hb,
          Bool.false_eq_true, if_false, List.append_eq]
      rw [hstep, hro]
      congr 1
      simp only [List.length_cons, List.replicate_succ, Mgr.mk.injEq,
        List.append_assoc, List.singleton_append, and_true, true_and]
      omega

/-- Auxiliary: one loop iteration whose fetch reports `"completed"` and
whose message list extracts successfully breaks out of the loop with the
response and the formatted runtime stored. -/
lemma wait_assistant_completed_step (rN : Run)
    (rest : List (Except String Run)) (messages : List Message) (m : Mgr)
    (resp : String) (hN : rN.status = "completed")
    (hresp : retrieve_response_value messages = Except.ok resp) :
    wait_assistant (Except.ok rN :: rest) messages m =
      some { m with
              fetches := m.fetches + 1
              run := some rN
              response := some resp
              runtime := some (retrieve_runtime_value rN)
              logs := m.logs ++ [runtimeLog rN] } := by
  simp only [wait_assistant, hN, beq_self_eq_true, if_true, hresp]

/-- Auxiliary: one loop iteration whose fetch raises is caught by the
`except` clause: ERROR log line, loop breaks, nothing else changes. -/
lemma wait_assistant_error_step (e : String)
    (rest : List (Except String Run)) (messages : List Message) (m : Mgr) :
    wait_assistant (Except.error e :: rest) messages m =
      some { m with
              fetches := m.fetches + 1
              logs := m.logs ++ [pollErrorLog e] } := rfl

/-- C1: if the first `pre.length` fetches succeed with a non-`"completed"`
status and the next fetch reports `"completed"` (no fetch raising), the
loop returns normally after exactly `pre.length + 1` status fetches, having
slept exactly `pre.length` times at the fixed 1-second `sleep_interval`,
and produces the response text and the formatted elapsed duration. -/
theorem wait_assistant_completes_after_n_polls (pre : List Run) (rN : Run)
    (rest : List (Except String Run)) (messages : List Message)
    (resp : String) (m : Mgr)
    (hpre : ∀ r ∈ pre, r.status ≠ "completed")
    (hN : rN.status = "completed")
    (hresp : retrieve_response_value messages = Except.ok resp) :
    ∃ final,
      wait_assistant (pre.map Except.ok ++ Except.ok rN :: rest) messages m =
          some final ∧
        final.fetches = m.fetches + pre.length + 1 ∧
        final.sleeps = m.sleeps ++ List.replicate pre.length sleep_interval ∧
        final.response = some resp ∧
        final.runtime = some (retrieve_runtime_value rN) ∧
        final.run = some rN ∧
        final.session = m.session := by
  obtain ⟨ro, hskip⟩ :=
    wait_assistant_skip pre (Except.ok rN :: rest) messages m hpre
  have hstep := wait_assistant_completed_step rN rest messages
    { m with
        fetches := m.fetches + pre.length
        run := ro
        logs := m.logs ++ List.replicate pre.length waitingLog
        sleeps := m.sleeps ++ List.replicate pre.length sleep_interval }
    resp hN hresp
  rw [hskip, hstep]
  exact ⟨_, rfl, rfl, rfl, rfl, rfl, rfl, rfl⟩

/-- Witness for C1: one `"in_progress"` poll then a `"completed"` poll on a
run with `createdAt = 0, completedAt = 65`, message text `"Hi there"`. -/
theorem wait_assistant_completes_witness :
    ∃ final,
      wait_assistant
            [Except.ok ⟨"run_1", "in_progress", 0, 0⟩,
             Except.ok ⟨"run_1", "completed", 0, 65⟩]
            [⟨[⟨"Hi there"⟩]⟩]
            ⟨⟨some "a", some "t"⟩, some "run_1", none, none, none, 0, [], []⟩ =
          some final ∧
        final.fetches = 0 + 1 + 1 ∧
        final.sleeps = [] ++ List.replicate 1 sleep_interval ∧
        final.response = some "Hi there" ∧
        final.runtime =
          some (retrieve_runtime_value ⟨"run_1", "completed", 0, 65⟩) ∧
        final.run = some ⟨"run_1", "completed", 0, 65⟩ ∧
        final.session = SessionState.mk (some "a") (some "t") :=
  wait_assistant_completes_after_n_polls
    [⟨"run_1", "in_progress", 0, 0⟩] ⟨"run_1", "completed", 0, 65⟩ [] _ _ _
    (by
      intro r hr
      simp only [List.mem_singleton] at hr
      subst hr
      decide)
    rfl rfl

/-- C3: if the first `pre.length` fetches succeed without `"completed"` and
the next fetch raises, the loop exits on that very iteration with an
ERROR-level log line, no exception propagates (the call still returns a
final state), and the response and runtime keep their initial `None`
values. -/
theorem wait_assistant_fetch_error_aborts (pre : List Run) (e : String)
    (rest : List (Except String Run)) (messages : List Message) (m : Mgr)
    (hpre : ∀ r ∈ pre, r.status ≠ "completed")
    (hresp0 : m.response = none) (hrt0 : m.runtime = none) :
    ∃ final,
      wait_assistant (pre.map Except.ok ++ Except.error e :: rest) messages m =
          some final ∧
        final.fetches = m.fetches + pre.length + 1 ∧
        final.response = none ∧
        final.runtime = none ∧
        final.logs = m.logs ++ List.replicate pre.length waitingLog ++
          [pollErrorLog e] ∧
        final.session = m.session := by
  obtain ⟨ro, hskip⟩ :=
    wait_assistant_skip pre (Except.error e :: rest) messages m hpre
  rw [hskip, wait_assistant_error_step]
  exact ⟨_, rfl, rfl, hresp0, hrt0, rfl, rfl⟩

/-- Witness for C3: the very first fetch raises `"timeout"`. -/
theorem wait_assistant_fetch_error_witness :
    ∃ final,
      wait_assistant [Except.error "timeout"] []
            ⟨⟨some "a", some "t"⟩, some "run_1", none, none, none, 0, [], []⟩ =
          some final ∧
        final.fetches = 0 + 0 + 1 ∧
        final.response = none ∧
        final.runtime = none ∧
        final.logs = [] ++ List.replicate 0 waitingLog ++
          [pollErrorLog "timeout"] ∧
        final.session = SessionState.mk (some "a") (some "t") :=
  wait_assistant_fetch_error_aborts [] "timeout" [] [] _
    (by intro r hr; exact absurd hr (List.not_mem_nil r)) rfl rfl

/-- C6: starting with neither id persisted, and with both creation calls
succeeding, `__init__` issues exactly one assistant-create and exactly one
thread-create call, no retrieve call, returns normally, and persists both
newly assigned ids in the session store. -/
theorem initManager_fresh_creates_both (env : IdentityEnv)
    (a : Assistant) (t : Thread)
    (ha : env.createAssistant = Except.ok a)
    (ht : env.createThread = Except.ok t) :
    ∃ s : InitState,
      initManager env ⟨none, none⟩ = (s, none) ∧
        s.calls = [ApiCall.createAssistant, ApiCall.createThread] ∧
        s.calls.count ApiCall.createAssistant = 1 ∧
        s.calls.count ApiCall.createThread = 1 ∧
        (∀ i : String, ApiCall.retrieveAssistant i ∉ s.calls ∧
          ApiCall.retrieveThread i ∉ s.calls) ∧
        s.session = ⟨some a.id, some t.id⟩ ∧
        s.assistant = some a ∧ s.thread = some t := by
  have hres : initManager env ⟨none, none⟩ =
      (⟨some a, some t, ⟨some a.id, some t.id⟩,
        [ApiCall.createAssistant, ApiCall.createThread],
        [infoLog "Assistant ID not found. Creating new Assistant...",
         infoLog ("New Assistant has been created, ID is: " ++ a.id),
         infoLog "Thread ID not found. Creating new Thread...",
         infoLog ("New Thread has been created, ID is: " ++ t.id)]⟩,
        none) := by
    simp [initManager, resolve_assistant, resolve_thread, create_assistant,
      create_thread, truthy, ha, ht]
  refine ⟨_, hres, rfl, by simp [List.count_cons], by simp [List.count_cons],
    ?_, rfl, rfl, rfl⟩
  intro i
  exact ⟨by simp, by simp⟩

/-- C7: with both ids persisted but both remote lookups raising, and both
creation calls succeeding, `__init__` recovers locally on each path
independently: one retrieve then one replacement create per entity, both
new ids persisted, an ERROR log line per failed lookup, and no exception
propagating out of the constructor. -/
theorem initManager_recovers_failed_lookups (env : IdentityEnv)
    (aid tid ea et : String) (a : Assistant) (t : Thread)
    (haid : aid ≠ "") (htid : tid ≠ "")
    (hra : env.retrieveAssistant aid = Except.error ea)
    (hca : env.createAssistant = Except.ok a)
    (hrt : env.retrieveThread tid = Except.error et)
    (hct : env.createThread = Except.ok t) :
    ∃ s : InitState,
      initManager env ⟨some aid, some tid⟩ = (s, none) ∧
        s.calls = [ApiCall.retrieveAssistant aid, ApiCall.createAssistant,
          ApiCall.retrieveThread tid, ApiCall.createThread] ∧
        s.calls.count ApiCall.createAssistant = 1 ∧
        s.calls.count ApiCall.createThread = 1 ∧
        s.session = ⟨some a.id, some t.id⟩ ∧
        errorLog ("Fail to retrieve Assistant: " ++ ea) ∈ s.logs ∧
        errorLog ("Fail to retrieve Thread: " ++ et) ∈ s.logs := by
  have htruthy_a : truthy (some aid) = true := by
    simp [truthy, haid]
  have htruthy_t : truthy (some tid) = true := by
    simp [truthy, htid]
  have hres : initManager env ⟨some aid, some tid⟩ =
      (⟨some a, some t, ⟨some a.id, some t.id⟩,
        [ApiCall.retrieveAssistant aid, ApiCall.createAssistant,
         ApiCall.retrieveThread tid, ApiCall.createThread],
        [infoLog "Assistant ID exists. Retrieving Assistant...",
         errorLog ("Fail to retrieve Assistant: " ++ ea),
         infoLog "No Assistant found. Creating new Assistant...",
         infoLog ("New Assistant has been created, ID is: " ++ a.id),
         infoLog "Thread ID exists. Retrieving Thread...",
         errorLog ("Fail to retrieve Thread: " ++ et),
         infoLog "No Thread found. Creating new Thread...",
         infoLog ("New Thread has been created, ID is: " ++ t.id)]⟩,
        none) := by
    simp [initManager, resolve_assistant, resolve_thread, create_assistant,
      create_thread, htruthy_a, htruthy_t, hra, hca, hrt, hct]
  exact ⟨_, hres, rfl, by simp [List.count_cons], by simp [List.count_cons],
    rfl, by simp, by simp⟩

/-- C10 (implicit): if the persisted assistant id's lookup raises and the
fallback create call itself raises, the exception propagates out of
`__init__`, the stale persisted id stays in the session store unchanged
(the store is only written after a successful create), and the thread half
never runs. -/
theorem initManager_create_failure_propagates (env : IdentityEnv)
    (aid ea ec : String) (tid0 : Option String) (haid : aid ≠ "")
    (hra : env.retrieveAssistant aid = Except.error ea)
    (hca : env.createAssistant = Except.error ec) :
    ∃ s : InitState,
      initManager env ⟨some aid, tid0⟩ = (s, some ec) ∧
        s.session = ⟨some aid, tid0⟩ ∧
        s.calls = [ApiCall.retrieveAssistant aid, ApiCall.createAssistant] ∧
        errorLog ("Fail to retrieve Assistant: " ++ ea) ∈ s.logs := by
  have htruthy_a : truthy (some aid) = true := by
    simp [truthy, haid]
  have hres : initManager env ⟨some aid, tid0⟩ =
      (⟨none, none, ⟨some aid, tid0⟩,
        [ApiCall.retrieveAssistant aid, ApiCall.createAssistant],
        [infoLog "Assistant ID exists. Retrieving Assistant...",
         errorLog ("Fail to retrieve Assistant: " ++ ea),
         infoLog "No Assistant found. Creating new Assistant..."]⟩,
        some ec) := by
    simp [initManager, resolve_assistant, create_assistant, htruthy_a,
      hra, hca]
  exact ⟨_, hres, rfl, rfl, by simp⟩

/-- Auxiliary: the poll loop never writes the session store. -/
lemma wait_assistant_session_eq (polls : List (Except String Run))
    (messages : List Message) (m final : Mgr)
    (h : wait_assistant polls messages m = some final) :
    final.session = m.session := by
  induction polls generalizing m with
  | nil => exact absurd h (by simp [wait_assistant])
  | cons p rest ih =>
      match p with
      | Except.error e =>
          rw [wait_assistant_error_step] at h
          cases h
          rfl
      | Except.ok r =>
          by_cases hc : (r.status == "completed") = true
          · simp only [wait_assistant, hc, if_true] at h
            match hm : retrieve_response_value messages with
            | Except.error e => rw [hm] at h; cases h; rfl
            | Except.ok resp => rw [hm] at h; cases h; rfl
          · simp only [wait_assistant, hc, if_false, Bool.false_eq_true] at h
            have hsess := ih _ h
            exact hsess

/-- C9: once both ids are stored, every per-turn operation —
`ask_assistant`, `run_assistant`, `wait_assistant` (which internally runs
`retrieve_response` and `retrieve_runtime`), and the two accessors —
leaves the session store, hence both stored ids, unchanged. -/
theorem session_ids_unchanged_by_turn_ops :
    (∀ (m : Mgr) (prompt : String),
        (ask_assistant m prompt).1.session = m.session) ∧
    (∀ (m : Mgr) (created : Run),
        (run_assistant m created).session = m.session) ∧
    (∀ (polls : List (Except String Run)) (messages : List Message)
        (m final : Mgr), wait_assistant polls messages m = some final →
        final.session = m.session) ∧
    (∀ m : Mgr, (return_response m).1.session = m.session) ∧
    (∀ m : Mgr, (return_runtime m).1.session = m.session) :=
  ⟨fun _ _ => rfl, fun _ _ => rfl,
    wait_assistant_session_eq, fun _ => rfl, fun _ => rfl⟩

/-- Witness for C6 on a concrete environment whose creations return
`"asst_new"` and `"thread_new"`. -/
theorem initManager_fresh_creates_both_witness :
    ∃ s : InitState,
      initManager
          ⟨fun _ => Except.error "not found", Except.ok ⟨"asst_new"⟩,
           fun _ => Except.error "not found", Except.ok ⟨"thread_new"⟩⟩
          ⟨none, none⟩ = (s, none) ∧
        s.calls = [ApiCall.createAssistant, ApiCall.createThread] ∧
        s.calls.count ApiCall.createAssistant = 1 ∧
        s.calls.count ApiCall.createThread = 1 ∧
        (∀ i : String, ApiCall.retrieveAssistant i ∉ s.calls ∧
          ApiCall.retrieveThread i ∉ s.calls) ∧
        s.session = ⟨some "asst_new", some "thread_new"⟩ ∧
        s.assistant = some ⟨"asst_new"⟩ ∧ s.thread = some ⟨"thread_new"⟩ :=
  initManager_fresh_creates_both _ ⟨"asst_new"⟩ ⟨"thread_new"⟩ rfl rfl

/-- Witness for C7: both persisted ids are rejected with `"404"` and both
replacement creations succeed. -/
theorem initManager_recovers_failed_lookups_witness :
    ∃ s : InitState,
      initManager
          ⟨fun _ => Except.error "404", Except.ok ⟨"asst_new"⟩,
           fun _ => Except.error "404", Except.ok ⟨"thread_new"⟩⟩
          ⟨some "asst_old", some "thread_old"⟩ = (s, none) ∧
        s.calls = [ApiCall.retrieveAssistant "asst_old",
          ApiCall.createAssistant, ApiCall.retrieveThread "thread_old",
          ApiCall.createThread] ∧
        s.calls.count ApiCall.createAssistant = 1 ∧
        s.calls.count ApiCall.createThread = 1 ∧
        s.session = ⟨some "asst_new", some "thread_new"⟩ ∧
        errorLog ("Fail to retrieve Assistant: " ++ "404") ∈ s.logs ∧
        errorLog ("Fail to retrieve Thread: " ++ "404") ∈ s.logs :=
  initManager_recovers_failed_lookups _ "asst_old" "thread_old" "404" "404"
    ⟨"asst_new"⟩ ⟨"thread_new"⟩ (by decide) (by decide) rfl rfl rfl rfl

/-- Witness for C10: the stale id `"asst_old"` survives a failed lookup
followed by a failed creation, and the creation error propagates. -/
theorem initManager_create_failure_propagates_witness :
    ∃ s : InitState,
      initManager
          ⟨fun _ => Except.error "404", Except.error "boom",
           fun _ => Except.error "404", Except.error "boom"⟩
          ⟨some "asst_old", some "thread_old"⟩ = (s, some "boom") ∧
        s.session = ⟨some "asst_old", some "thread_old"⟩ ∧
        s.calls = [ApiCall.retrieveAssistant "asst_old",
          ApiCall.createAssistant] ∧
        errorLog ("Fail to retrieve Assistant: " ++ "404") ∈ s.logs :=
  initManager_create_failure_propagates _ "asst_old" "404" "boom"
    (some "thread_old") (by decide) rfl rfl

/-- Witness for C9, applying the poll-loop conjunct to a concrete aborted
run: the session ids survive. -/
theorem session_ids_unchanged_witness :
    (Mgr.mk ⟨some "a", some "t"⟩ (some "run_1") none none none 1 []
        [pollErrorLog "boom"]).session =
      (Mgr.mk ⟨some "a", some "t"⟩ (some "run_1") none none none 0 []
        []).session :=
  session_ids_unchanged_by_turn_ops.2.2.1 [Except.error "boom"] [] _ _ rfl

end PersonalTrainer
